import Mathlib

/-!
Verification of the FDM printing cost calculator (`src/main.py`).

Real-valued quantities (Python `float`) are modelled as exact rationals `ℚ`;
the spec's numeric claims carry explicit tolerances where it says `≈`.
The pydantic input schema, its `Field(gt=0)` validation and `frozen` config,
the cost formulas, the `cached_property` memoization, the template dump and
the `run_calculator` driver are embedded below, each mirroring the source.
-/

namespace FDMCalc

/-- Constant `YEAR_IN_HOURS = 8766` from `src/main.py`. -/
def YEAR_IN_HOURS : ℚ := 8766

/-- Constant `HOUR_IN_SECONDS = 3600` from `src/main.py`. -/
def HOUR_IN_SECONDS : ℚ := 3600

/-- The fifteen input fields of `CalculatorInput` (pydantic `BaseModel`).
This record holds the raw field values; the `Field(gt=0)` constraint on
`machine_lifespan_years` is modelled separately by `modelValidate`. -/
structure CalculatorInput where
  material_used_grams : ℚ
  material_cost_per_kg : ℚ
  energy_cost_per_kWh : ℚ
  machine_preheat_time_seconds : ℚ
  machine_preheat_kWh : ℚ
  machine_operating_time_hours : ℚ
  machine_operating_kWh : ℚ
  machine_cost_purchase : ℚ
  machine_lifespan_years : ℚ
  machine_repair_percentage : ℚ
  operator_job_hours : ℚ
  operator_wage_hourly : ℚ
  shipping_cost : ℚ
  margin_percentage : ℚ
  taxes_percentage : ℚ
deriving DecidableEq, Repr

/-- The eight output fields of `CalculatorOutput`. -/
structure CalculatorOutput where
  material_cost : ℚ
  energy_cost : ℚ
  wear_cost : ℚ
  labor_cost : ℚ
  shipping_cost : ℚ
  margin_gain : ℚ
  tax_addition : ℚ
  total_cost : ℚ
deriving DecidableEq, Repr

namespace FDMCalculator

/-- `FDMCalculator.material_cost`: `(material_cost_per_kg / 1000.0) * material_used_grams`. -/
def material_cost (d : CalculatorInput) : ℚ :=
  (d.material_cost_per_kg / 1000) * d.material_used_grams

/-- `FDMCalculator.energy_cost`. -/
def energy_cost (d : CalculatorInput) : ℚ :=
  let preheat_hours := d.machine_preheat_time_seconds / HOUR_IN_SECONDS
  let preheat_energy := preheat_hours * d.machine_preheat_kWh
  let operating_energy := d.machine_operating_time_hours * d.machine_operating_kWh
  d.energy_cost_per_kWh * (preheat_energy + operating_energy)

/-- `FDMCalculator.wear_cost`. -/
def wear_cost (d : CalculatorInput) : ℚ :=
  let total_lifespan_hours := YEAR_IN_HOURS * d.machine_lifespan_years
  let total_machine_cost := d.machine_cost_purchase * (1 + d.machine_repair_percentage)
  (total_machine_cost * d.machine_operating_time_hours) / total_lifespan_hours

/-- `FDMCalculator.labor_cost`: `operator_job_hours * operator_wage_hourly`. -/
def labor_cost (d : CalculatorInput) : ℚ :=
  d.operator_job_hours * d.operator_wage_hourly

/-- `FDMCalculator.total_process_cost`. -/
def total_process_cost (d : CalculatorInput) : ℚ :=
  material_cost d + energy_cost d + wear_cost d + labor_cost d

/-- `FDMCalculator.margin_gain`: `total_process_cost * margin_percentage`. -/
def margin_gain (d : CalculatorInput) : ℚ :=
  total_process_cost d * d.margin_percentage

/-- `FDMCalculator.tax_addition`. -/
def tax_addition (d : CalculatorInput) : ℚ :=
  let base_for_tax := total_process_cost d + margin_gain d + d.shipping_cost
  base_for_tax * d.taxes_percentage

/-- `FDMCalculator.total_cost`. -/
def total_cost (d : CalculatorInput) : ℚ :=
  total_process_cost d + margin_gain d + tax_addition d

/-- `FDMCalculator.calculate`: assembles the `CalculatorOutput` record. -/
def calculate (d : CalculatorInput) : CalculatorOutput :=
  { material_cost := material_cost d
    energy_cost := energy_cost d
    wear_cost := wear_cost d
    labor_cost := labor_cost d
    shipping_cost := d.shipping_cost
    margin_gain := margin_gain d
    tax_addition := tax_addition d
    total_cost := total_cost d }

end FDMCalculator

/-- Pydantic validation of `CalculatorInput`: the only domain constraint in the
schema is `machine_lifespan_years: float = Field(gt=0)`; every other field
accepts any float. A violation raises `ValidationError`, modelled as `.error`. -/
def modelValidate (d : CalculatorInput) : Except String CalculatorInput :=
  if 0 < d.machine_lifespan_years then Except.ok d
  else Except.error "machine_lifespan_years: Input should be greater than 0"

/-- `run_calculator` after the file has been read: `none` models a missing file
or unreadable bytes (both exit 1 before validation); `some d` models bytes that
parse into the fifteen schema fields with raw values `d`.  `model_validate_json`
then applies `modelValidate`; a `ValidationError` leads to `sys.exit(1)`,
modelled as `Except.error 1` carrying the exit status.  Only on validated input
does `FDMCalculator.calculate` run and an output record get produced. -/
def run_calculator (parsed : Option CalculatorInput) : Except Nat CalculatorOutput :=
  match parsed with
  | none => Except.error 1
  | some d =>
    match modelValidate d with
    | Except.error _ => Except.error 1
    | Except.ok dd => Except.ok (FDMCalculator.calculate dd)

/-- `template_data` constructed in `dump_template`: all fields `0.0` except
`machine_lifespan_years = 1.0` ("Avoid division by zero"). -/
def template_data : CalculatorInput :=
  { material_used_grams := 0
    material_cost_per_kg := 0
    energy_cost_per_kWh := 0
    machine_preheat_time_seconds := 0
    machine_preheat_kWh := 0
    machine_operating_time_hours := 0
    machine_operating_kWh := 0
    machine_cost_purchase := 0
    machine_lifespan_years := 1
    machine_repair_percentage := 0
    operator_job_hours := 0
    operator_wage_hourly := 0
    shipping_cost := 0
    margin_percentage := 0
    taxes_percentage := 0 }

/-- Runtime state of an `FDMCalculator` instance: the (frozen) `data` record
plus one memo slot per `@cached_property`.  `cached_property` stores the value
in the instance dict on first access and returns the stored value afterwards;
it writes to the calculator object, never to `data`. -/
structure FDMCalcState where
  data : CalculatorInput
  material_cost_memo : Option ℚ
  energy_cost_memo : Option ℚ
  wear_cost_memo : Option ℚ
  labor_cost_memo : Option ℚ
  total_process_cost_memo : Option ℚ
  margin_gain_memo : Option ℚ
  tax_addition_memo : Option ℚ
  total_cost_memo : Option ℚ
deriving DecidableEq, Repr

/-- `FDMCalculator.__init__`: stores `data`; no property is computed yet. -/
def initCalc (d : CalculatorInput) : FDMCalcState :=
  { data := d
    material_cost_memo := none
    energy_cost_memo := none
    wear_cost_memo := none
    labor_cost_memo := none
    total_process_cost_memo := none
    margin_gain_memo := none
    tax_addition_memo := none
    total_cost_memo := none }

/-- Access of the `material_cost` cached property on a live calculator. -/
def getMaterialCost (s : FDMCalcState) : ℚ × FDMCalcState :=
  match s.material_cost_memo with
  | some v => (v, s)
  | none =>
    let v := (s.data.material_cost_per_kg / 1000) * s.data.material_used_grams
    (v, { s with material_cost_memo := some v })

/-- Access of the `energy_cost` cached property on a live calculator. -/
def getEnergyCost (s : FDMCalcState) : ℚ × FDMCalcState :=
  match s.energy_cost_memo with
  | some v => (v, s)
  | none =>
    let preheat_hours := s.data.machine_preheat_time_seconds / HOUR_IN_SECONDS
    let preheat_energy := preheat_hours * s.data.machine_preheat_kWh
    let operating_energy := s.data.machine_operating_time_hours * s.data.machine_operating_kWh
    let v := s.data.energy_cost_per_kWh * (preheat_energy + operating_energy)
    (v, { s with energy_cost_memo := some v })

/-- Access of the `wear_cost` cached property on a live calculator. -/
def getWearCost (s : FDMCalcState) : ℚ × FDMCalcState :=
  match s.wear_cost_memo with
  | some v => (v, s)
  | none =>
    let total_lifespan_hours := YEAR_IN_HOURS * s.data.machine_lifespan_years
    let total_machine_cost := s.data.machine_cost_purchase * (1 + s.data.machine_repair_percentage)
    let v := (total_machine_cost * s.data.machine_operating_time_hours) / total_lifespan_hours
    (v, { s with wear_cost_memo := some v })

/-- Access of the `labor_cost` cached property on a live calculator. -/
def getLaborCost (s : FDMCalcState) : ℚ × FDMCalcState :=
  match s.labor_cost_memo with
  | some v => (v, s)
  | none =>
    let v := s.data.operator_job_hours * s.data.operator_wage_hourly
    (v, { s with labor_cost_memo := some v })

/-- Access of the `total_process_cost` cached property: reads the four base
cost properties (caching each) then sums them. -/
def getTotalProcessCost (s : FDMCalcState) : ℚ × FDMCalcState :=
  match s.total_process_cost_memo with
  | some v => (v, s)
  | none =>
    let p1 := getMaterialCost s
    let p2 := getEnergyCost p1.2
    let p3 := getWearCost p2.2
    let p4 := getLaborCost p3.2
    let v := p1.1 + p2.1 + p3.1 + p4.1
    (v, { p4.2 with total_process_cost_memo := some v })

/-- Access of the `margin_gain` cached property. -/
def getMarginGain (s : FDMCalcState) : ℚ × FDMCalcState :=
  match s.margin_gain_memo with
  | some v => (v, s)
  | none =>
    let p := getTotalProcessCost s
    let v := p.1 * p.2.data.margin_percentage
    (v, { p.2 with margin_gain_memo := some v })

/-- Access of the `tax_addition` cached property. -/
def getTaxAddition (s : FDMCalcState) : ℚ × FDMCalcState :=
  match s.tax_addition_memo with
  | some v => (v, s)
  | none =>
    let p := getTotalProcessCost s
    let q := getMarginGain p.2
    let base_for_tax := p.1 + q.1 + q.2.data.shipping_cost
    let v := base_for_tax * q.2.data.taxes_percentage
    (v, { q.2 with tax_addition_memo := some v })

/-- Access of the `total_cost` cached property. -/
def getTotalCost (s : FDMCalcState) : ℚ × FDMCalcState :=
  match s.total_cost_memo with
  | some v => (v, s)
  | none =>
    let p := getTotalProcessCost s
    let q := getMarginGain p.2
    let r := getTaxAddition q.2
    let v := p.1 + q.1 + r.1
    (v, { r.2 with total_cost_memo := some v })

/-- `FDMCalculator.calculate` on a live calculator: reads the properties in the
order of the `CalculatorOutput(...)` constructor call and returns the output
record together with the calculator state after the call. -/
def calculateState (s : FDMCalcState) : CalculatorOutput × FDMCalcState :=
  let p1 := getMaterialCost s
  let p2 := getEnergyCost p1.2
  let p3 := getWearCost p2.2
  let p4 := getLaborCost p3.2
  let p5 := getMarginGain p4.2
  let p6 := getTaxAddition p5.2
  let p7 := getTotalCost p6.2
  ({ material_cost := p1.1
     energy_cost := p2.1
     wear_cost := p3.1
     labor_cost := p4.1
     shipping_cost := p7.2.data.shipping_cost
     margin_gain := p5.1
     tax_addition := p6.1
     total_cost := p7.1 }, p7.2)

/-- The worked example input of spec §8. -/
def exampleInput : CalculatorInput :=
  { material_used_grams := 100
    material_cost_per_kg := 20
    energy_cost_per_kWh := 3/10
    machine_preheat_time_seconds := 600
    machine_preheat_kWh := 1/2
    machine_operating_time_hours := 2
    machine_operating_kWh := 4/5
    machine_cost_purchase := 500
    machine_lifespan_years := 5
    machine_repair_percentage := 1/10
    operator_job_hours := 1
    operator_wage_hourly := 15
    shipping_cost := 5
    margin_percentage := 1/5
    taxes_percentage := 1/10 }

/-- An all-zero input with lifespan left as a parameter (spec §8 zero-input
property). -/
def zeroInput (L : ℚ) : CalculatorInput :=
  { material_used_grams := 0
    material_cost_per_kg := 0
    energy_cost_per_kWh := 0
    machine_preheat_time_seconds := 0
    machine_preheat_kWh := 0
    machine_operating_time_hours := 0
    machine_operating_kWh := 0
    machine_cost_purchase := 0
    machine_lifespan_years := L
    machine_repair_percentage := 0
    operator_job_hours := 0
    operator_wage_hourly := 0
    shipping_cost := 0
    margin_percentage := 0
    taxes_percentage := 0 }

/-- An input with negative masses, costs and percentages but a positive
lifespan: every field other than the lifespan is unconstrained by the schema. -/
def negInput : CalculatorInput :=
  { material_used_grams := -100
    material_cost_per_kg := -20
    energy_cost_per_kWh := -3/10
    machine_preheat_time_seconds := -600
    machine_preheat_kWh := -1/2
    machine_operating_time_hours := -2
    machine_operating_kWh := -4/5
    machine_cost_purchase := -500
    machine_lifespan_years := 5
    machine_repair_percentage := -1/10
    operator_job_hours := -1
    operator_wage_hourly := -15
    shipping_cost := -5
    margin_percentage := -1/5
    taxes_percentage := -1/10 }

/-! ## Helper lemmas: property access never touches the `data` record -/

theorem getMaterialCost_preserves_data (s : FDMCalcState) :
    (getMaterialCost s).2.data = s.data := by
  unfold getMaterialCost
  split <;> rfl

theorem getEnergyCost_preserves_data (s : FDMCalcState) :
    (getEnergyCost s).2.data = s.data := by
  unfold getEnergyCost
  split <;> rfl

theorem getWearCost_preserves_data (s : FDMCalcState) :
    (getWearCost s).2.data = s.data := by
  unfold getWearCost
  split <;> rfl

theorem getLaborCost_preserves_data (s : FDMCalcState) :
    (getLaborCost s).2.data = s.data := by
  unfold getLaborCost
  split <;> rfl

theorem getTotalProcessCost_preserves_data (s : FDMCalcState) :
    (getTotalProcessCost s).2.data = s.data := by
  unfold getTotalProcessCost
  split
  · rfl
  · simp [getLaborCost_preserves_data, getWearCost_preserves_data,
      getEnergyCost_preserves_data, getMaterialCost_preserves_data]

theorem getMarginGain_preserves_data (s : FDMCalcState) :
    (getMarginGain s).2.data = s.data := by
  unfold getMarginGain
  split
  · rfl
  · simp [getTotalProcessCost_preserves_data]

theorem getTaxAddition_preserves_data (s : FDMCalcState) :
    (getTaxAddition s).2.data = s.data := by
  unfold getTaxAddition
  split
  · rfl
  · simp [getMarginGain_preserves_data, getTotalProcessCost_preserves_data]

theorem getTotalCost_preserves_data (s : FDMCalcState) :
    (getTotalCost s).2.data = s.data := by
  unfold getTotalCost
  split
  · rfl
  · simp [getTaxAddition_preserves_data, getMarginGain_preserves_data,
      getTotalProcessCost_preserves_data]

theorem calculateState_preserves_data (s : FDMCalcState) :
    (calculateState s).2.data = s.data := by
  unfold calculateState
  simp [getTotalCost_preserves_data, getTaxAddition_preserves_data,
    getMarginGain_preserves_data, getLaborCost_preserves_data,
    getWearCost_preserves_data, getEnergyCost_preserves_data,
    getMaterialCost_preserves_data]

/-! ## Claim theorems -/

open FDMCalculator in
/-- C1: for every valid input (`machine_lifespan_years > 0`), the margin/tax
asymmetry holds: `margin_gain = total_process_cost * margin_percentage`
(shipping is not in the margin base) and
`tax_addition = (total_process_cost + margin_gain + shipping_cost) *
taxes_percentage` (shipping is in the tax base). -/
theorem margin_tax_asymmetry (d : CalculatorInput)
    (h : 0 < d.machine_lifespan_years) :
    margin_gain d = total_process_cost d * d.margin_percentage ∧
    tax_addition d =
      (total_process_cost d + margin_gain d + d.shipping_cost) * d.taxes_percentage :=
  ⟨rfl, rfl⟩

/-- Witness for C1 at the spec's worked example input. -/
theorem margin_tax_asymmetry_witness :
    FDMCalculator.margin_gain exampleInput =
      FDMCalculator.total_process_cost exampleInput * exampleInput.margin_percentage ∧
    FDMCalculator.tax_addition exampleInput =
      (FDMCalculator.total_process_cost exampleInput + FDMCalculator.margin_gain exampleInput +
        exampleInput.shipping_cost) * exampleInput.taxes_percentage :=
  margin_tax_asymmetry exampleInput (by norm_num [exampleInput])

open FDMCalculator in
/-- C2: for every valid input, `total_process_cost` is the sum of the four base
costs, and `total_cost = total_process_cost + margin_gain + tax_addition`, so
shipping enters `total_cost` only through `tax_addition`. -/
theorem total_cost_structure (d : CalculatorInput)
    (h : 0 < d.machine_lifespan_years) :
    total_process_cost d = material_cost d + energy_cost d + wear_cost d + labor_cost d ∧
    total_cost d = total_process_cost d + margin_gain d + tax_addition d :=
  ⟨rfl, rfl⟩

/-- Witness for C2 at the spec's worked example input. -/
theorem total_cost_structure_witness :
    FDMCalculator.total_process_cost exampleInput =
      FDMCalculator.material_cost exampleInput + FDMCalculator.energy_cost exampleInput +
        FDMCalculator.wear_cost exampleInput + FDMCalculator.labor_cost exampleInput ∧
    FDMCalculator.total_cost exampleInput =
      FDMCalculator.total_process_cost exampleInput + FDMCalculator.margin_gain exampleInput +
        FDMCalculator.tax_addition exampleInput :=
  total_cost_structure exampleInput (by norm_num [exampleInput])

/-- C3: an input whose lifespan is zero or negative fails `modelValidate`
(the pydantic `Field(gt=0)` check, run at input construction before any cost
figure is computed), and `run_calculator` exits with status 1; no output
record is produced. -/
theorem nonpositive_lifespan_exits (d : CalculatorInput)
    (h : d.machine_lifespan_years ≤ 0) :
    run_calculator (some d) = Except.error 1 ∧
    ∀ o : CalculatorOutput, run_calculator (some d) ≠ Except.ok o := by
  have hrun : run_calculator (some d) = Except.error 1 := by
    simp [run_calculator, modelValidate, not_lt.mpr h]
  exact ⟨hrun, fun o ho => by rw [hrun] at ho; exact Except.noConfusion ho⟩

/-- Witness for C3 at the all-zero input (lifespan 0). -/
theorem nonpositive_lifespan_exits_witness :
    run_calculator (some (zeroInput 0)) = Except.error 1 ∧
    ∀ o : CalculatorOutput, run_calculator (some (zeroInput 0)) ≠ Except.ok o :=
  nonpositive_lifespan_exits (zeroInput 0) (by norm_num [zeroInput])

open FDMCalculator in
/-- C4: the spec's worked example.  Exact values where the spec gives them
exactly (`material_cost = 2.0`, `energy_cost = 0.505`, `labor_cost = 15.0`);
for the figures the spec marks `≈`, within one unit in the last stated decimal
place (`wear_cost ≈ 0.02509`, `total_process_cost ≈ 17.53`,
`margin_gain ≈ 3.506`, `tax_addition ≈ 2.6036`, `total_cost ≈ 23.64`). -/
theorem worked_example :
    material_cost exampleInput = 2 ∧
    energy_cost exampleInput = 101/200 ∧
    |wear_cost exampleInput - 2509/100000| < 1/100000 ∧
    labor_cost exampleInput = 15 ∧
    |total_process_cost exampleInput - 1753/100| < 1/100 ∧
    |margin_gain exampleInput - 3506/1000| < 1/1000 ∧
    |tax_addition exampleInput - 26036/10000| < 1/10000 ∧
    |total_cost exampleInput - 2364/100| < 1/100 := by
  refine ⟨by norm_num [material_cost, exampleInput],
    by norm_num [energy_cost, exampleInput, HOUR_IN_SECONDS], ?_,
    by norm_num [labor_cost, exampleInput], ?_, ?_, ?_, ?_⟩ <;>
  · rw [abs_sub_lt_iff]
    norm_num [total_cost, tax_addition, margin_gain, total_process_cost, material_cost,
      energy_cost, wear_cost, labor_cost, exampleInput, YEAR_IN_HOURS, HOUR_IN_SECONDS]

open FDMCalculator in
/-- C5: on an input whose fifteen fields are all zero except a strictly
positive lifespan, all eight output fields are zero. -/
theorem zero_input_zero_output (L : ℚ) (h : 0 < L) :
    calculate (zeroInput L) =
      { material_cost := 0, energy_cost := 0, wear_cost := 0, labor_cost := 0,
        shipping_cost := 0, margin_gain := 0, tax_addition := 0, total_cost := 0 } := by
  simp [calculate, total_cost, tax_addition, margin_gain, total_process_cost,
    material_cost, energy_cost, wear_cost, labor_cost, zeroInput,
    YEAR_IN_HOURS, HOUR_IN_SECONDS]

/-- Witness for C5 at lifespan 1 (the template's placeholder). -/
theorem zero_input_zero_output_witness :
    FDMCalculator.calculate (zeroInput 1) =
      { material_cost := 0, energy_cost := 0, wear_cost := 0, labor_cost := 0,
        shipping_cost := 0, margin_gain := 0, tax_addition := 0, total_cost := 0 } :=
  zero_input_zero_output 1 (by norm_num)

open FDMCalculator in
/-- C6: for every input with positive lifespan, `wear_cost` equals
`machine_cost_purchase * (1 + machine_repair_percentage) *
machine_operating_time_hours / (8766 * machine_lifespan_years)`, with
`HOURS_PER_YEAR` fixed at 8766, and that denominator is nonzero. -/
theorem wear_cost_formula (d : CalculatorInput)
    (h : 0 < d.machine_lifespan_years) :
    wear_cost d =
      d.machine_cost_purchase * (1 + d.machine_repair_percentage) *
        d.machine_operating_time_hours / (8766 * d.machine_lifespan_years) ∧
    (8766 : ℚ) * d.machine_lifespan_years ≠ 0 :=
  ⟨rfl, mul_ne_zero (by norm_num) (ne_of_gt h)⟩

/-- Witness for C6 at the spec's worked example input. -/
theorem wear_cost_formula_witness :
    FDMCalculator.wear_cost exampleInput =
      exampleInput.machine_cost_purchase * (1 + exampleInput.machine_repair_percentage) *
        exampleInput.machine_operating_time_hours /
          (8766 * exampleInput.machine_lifespan_years) ∧
    (8766 : ℚ) * exampleInput.machine_lifespan_years ≠ 0 :=
  wear_cost_formula exampleInput (by norm_num [exampleInput])

/-- C7: the calculation is deterministic and pure: two runs on equal input
records produce equal output records (hence all eight output fields agree),
and a run of the memoized calculator started from a fresh instance equals the
pure function of the input record alone — the computation reads no state other
than the input record (the embedding has no I/O or randomness to read). -/
theorem calculation_deterministic (d₁ d₂ : CalculatorInput) (h : d₁ = d₂) :
    FDMCalculator.calculate d₁ = FDMCalculator.calculate d₂ ∧
    (calculateState (initCalc d₁)).1 = FDMCalculator.calculate d₁ := by
  subst h
  exact ⟨rfl, rfl⟩

/-- Witness for C7 at the spec's worked example input. -/
theorem calculation_deterministic_witness :
    FDMCalculator.calculate exampleInput = FDMCalculator.calculate exampleInput ∧
    (calculateState (initCalc exampleInput)).1 = FDMCalculator.calculate exampleInput :=
  calculation_deterministic exampleInput exampleInput rfl

/-- C8: the record built by `dump_template` has all fields zero except
`machine_lifespan_years = 1.0`, a positive placeholder, so the template itself
passes the lifespan validation and avoids the division-by-zero condition. -/
theorem template_record_valid :
    template_data.material_used_grams = 0 ∧
    template_data.material_cost_per_kg = 0 ∧
    template_data.energy_cost_per_kWh = 0 ∧
    template_data.machine_preheat_time_seconds = 0 ∧
    template_data.machine_preheat_kWh = 0 ∧
    template_data.machine_operating_time_hours = 0 ∧
    template_data.machine_operating_kWh = 0 ∧
    template_data.machine_cost_purchase = 0 ∧
    template_data.machine_lifespan_years = 1 ∧
    template_data.machine_repair_percentage = 0 ∧
    template_data.operator_job_hours = 0 ∧
    template_data.operator_wage_hourly = 0 ∧
    template_data.shipping_cost = 0 ∧
    template_data.margin_percentage = 0 ∧
    template_data.taxes_percentage = 0 ∧
    0 < template_data.machine_lifespan_years ∧
    (modelValidate template_data).isOk = true := by
  refine ⟨rfl, rfl, rfl, rfl, rfl, rfl, rfl, rfl, rfl, rfl, rfl, rfl, rfl, rfl, rfl,
    by norm_num [template_data], ?_⟩
  simp [modelValidate, template_data, Except.isOk, Except.toBool]

/-- C9: input construction rejects an input exactly when
`machine_lifespan_years ≤ 0`; any other combination of field values — negative
masses, costs and percentages included — is accepted, and the computation then
produces an output record without error. -/
theorem reject_iff_nonpositive_lifespan (d : CalculatorInput) :
    ((modelValidate d).isOk = false ↔ d.machine_lifespan_years ≤ 0) ∧
    (0 < d.machine_lifespan_years →
      run_calculator (some d) = Except.ok (FDMCalculator.calculate d)) := by
  constructor
  · unfold modelValidate
    split <;> rename_i hcond <;> simp [Except.isOk, Except.toBool]
    · exact hcond
    · exact not_lt.mp hcond
  · intro h
    simp [run_calculator, modelValidate, h]

/-- Witness for C9: the all-negative input (positive lifespan) is accepted and
computes an output. -/
theorem reject_iff_nonpositive_lifespan_witness :
    run_calculator (some negInput) = Except.ok (FDMCalculator.calculate negInput) :=
  (reject_iff_nonpositive_lifespan negInput).2 (by norm_num [negInput])

/-- C10: neither accessing any of the eight cost properties nor running
`calculate` modifies the input record: from any calculator state, every
property getter and `calculate` leave `data` unchanged, and after `calculate`
on a freshly constructed calculator the input record — all fifteen fields —
equals the record supplied at construction time. -/
theorem input_record_unmodified (s : FDMCalcState) (d : CalculatorInput) :
    (getMaterialCost s).2.data = s.data ∧
    (getEnergyCost s).2.data = s.data ∧
    (getWearCost s).2.data = s.data ∧
    (getLaborCost s).2.data = s.data ∧
    (getTotalProcessCost s).2.data = s.data ∧
    (getMarginGain s).2.data = s.data ∧
    (getTaxAddition s).2.data = s.data ∧
    (getTotalCost s).2.data = s.data ∧
    (calculateState s).2.data = s.data ∧
    (calculateState (initCalc d)).2.data = d :=
  ⟨getMaterialCost_preserves_data s, getEnergyCost_preserves_data s,
    getWearCost_preserves_data s, getLaborCost_preserves_data s,
    getTotalProcessCost_preserves_data s, getMarginGain_preserves_data s,
    getTaxAddition_preserves_data s, getTotalCost_preserves_data s,
    calculateState_preserves_data s, calculateState_preserves_data (initCalc d)⟩

end FDMCalc
